import Mathlib

/-!
Verification of the incident consolidation and view-synchronization engine of
the Dallas PD active-calls dashboard.

The repository ships two frontend variants:
* `src/public/app.js` — the consolidating dashboard (consolidateData,
  getFilteredCalls, updateMarkers, renderList, updateStats, focusCall,
  fetchCalls, triggerRefresh);
* `src/unnamed/part_000` — an earlier variant without consolidation
  (clearAndRenderMarkers, upsertMarker, updateStatus, pullLatest,
  triggerServerRefresh, fetchCalls).

JavaScript values are embedded as follows: nullable strings become
`Option String` (with `none` for null/undefined), the always-present
`incidentNumber` stays `String` (the backend contract types it as a string;
"missing" is the empty string, which is exactly the falsy case JS sees),
optional numeric coordinates become `Option Int` (`none` = null/undefined;
the only falsy non-null number representable is `0`; NaN does not arise in
the model).  JS `Map` objects are embedded as association lists in insertion
order with `Map.set`/`Map.get`/`Map.has` semantics.
-/

/-- JS string truthiness for an `Option String`: null/undefined and `""` are falsy. -/
def truthyStr (o : Option String) : Bool :=
  match o with
  | some s => s != ""
  | none => false

/-- JS `a || b` for a nullable string `a` with a plain-string fallback `b`. -/
def strOr (a : Option String) (b : String) : String :=
  match a with
  | some s => if s = "" then b else s
  | none => b

/-- JS `a || b` where `a` is a plain string (falsy only when empty). -/
def strOrS (a : String) (b : String) : String :=
  if a = "" then b else a

/-- JS number truthiness for an `Option Int`: null/undefined and `0` are falsy. -/
def truthyCoord (o : Option Int) : Bool :=
  match o with
  | some v => v != 0
  | none => false

/-- JS `String.prototype.toLowerCase`, modeled as per-character lowering
(structural recursion over the character list, so it evaluates in the kernel). -/
def jsToLower (s : String) : String :=
  String.mk (s.data.map Char.toLower)

/-- JS `String.prototype.trim`: strip whitespace from both ends. -/
def jsTrim (s : String) : String :=
  String.mk (((s.data.dropWhile Char.isWhitespace).reverse.dropWhile
    Char.isWhitespace).reverse)

/-- Whether the first list is a prefix of the second. -/
def prefixList : List Char → List Char → Bool
  | [], _ => true
  | _ :: _, [] => false
  | a :: as, b :: bs => a == b && prefixList as bs

/-- Whether `needle` occurs as a contiguous run inside the second list. -/
def infixList (needle : List Char) : List Char → Bool
  | [] => prefixList needle []
  | b :: bs => prefixList needle (b :: bs) || infixList needle bs

/-- JS `haystack.includes(needle)`: substring test. -/
def jsIncludes (haystack needle : String) : Bool :=
  infixList needle.toList haystack.toList

/-- JS `Array.prototype.join(" ")`. -/
def joinSpace (l : List String) : String :=
  String.intercalate " " l

/-- Append `a` unless already present: the building block of first-seen dedup. -/
def insertIfNew {α : Type} [DecidableEq α] (acc : List α) (a : α) : List α :=
  if a ∈ acc then acc else acc ++ [a]

/-- Deduplicate a list keeping the first occurrence of each value, in order. -/
def firstDedup {α : Type} [DecidableEq α] (l : List α) : List α :=
  l.foldl insertIfNew []

/-! ### Association lists with JS `Map` semantics (string keys, insertion order) -/

/-- JS `Map.prototype.has`. -/
def alHas {α : Type} (m : List (String × α)) (k : String) : Bool :=
  m.any (fun e => e.1 == k)

/-- JS `Map.prototype.set`: overwrite in place if the key exists, else append. -/
def alSet {α : Type} (m : List (String × α)) (k : String) (v : α) : List (String × α) :=
  if alHas m k then m.map (fun e => if e.1 == k then (k, v) else e) else m ++ [(k, v)]

/-- In-place mutation of the value stored under `k` (JS `map.get(k)` then mutate). -/
def alUpdate {α : Type} (m : List (String × α)) (k : String) (f : α → α) :
    List (String × α) :=
  m.map (fun e => if e.1 == k then (e.1, f e.2) else e)

/-- JS `Map.prototype.values()` in insertion order. -/
def alValues {α : Type} (m : List (String × α)) : List α :=
  m.map (·.2)

/-- JS `Map.prototype.get` as an `Option`. -/
def alGet {α : Type} (m : List (String × α)) (k : String) : Option α :=
  (m.find? (fun e => e.1 == k)).map (·.2)

/-! ### Data model -/

/-- One backend record: one row per reporting unit per incident (spec §3 CallRow). -/
structure CallRow where
  incidentNumber : String
  natureOfCall : Option String
  division : Option String
  beat : Option String
  unitNumber : Option String
  status : Option String
  address : Option String
  location : Option String
  priority : Option String
  date : Option String
  time : Option String
  lat : Option Int
  lon : Option Int
deriving Repr, DecidableEq, Inhabited

/-- The consolidated per-incident record: the JS object `{...row, units, unitCount}`
built by `consolidateData` (src/public/app.js:114-118). -/
structure Incident where
  incidentNumber : String
  natureOfCall : Option String
  division : Option String
  beat : Option String
  unitNumber : Option String
  status : Option String
  address : Option String
  location : Option String
  priority : Option String
  date : Option String
  time : Option String
  lat : Option Int
  lon : Option Int
  units : List String
  unitCount : Nat
deriving Repr, DecidableEq, Inhabited

/-- The spread `{...row, units: [], unitCount: 0}` (src/public/app.js:114-118). -/
def Incident.ofRow (r : CallRow) : Incident :=
  { incidentNumber := r.incidentNumber
    natureOfCall := r.natureOfCall
    division := r.division
    beat := r.beat
    unitNumber := r.unitNumber
    status := r.status
    address := r.address
    location := r.location
    priority := r.priority
    date := r.date
    time := r.time
    lat := r.lat
    lon := r.lon
    units := []
    unitCount := 0 }

/-- Projection of an `Incident` back onto its scalar (row-copied) fields. -/
def Incident.scalars (i : Incident) : CallRow :=
  { incidentNumber := i.incidentNumber
    natureOfCall := i.natureOfCall
    division := i.division
    beat := i.beat
    unitNumber := i.unitNumber
    status := i.status
    address := i.address
    location := i.location
    priority := i.priority
    date := i.date
    time := i.time
    lat := i.lat
    lon := i.lon }

/-! ### Consolidation Engine (`consolidateData`, src/public/app.js:107-137) -/

/-- Body of the `rows.forEach` callback in `consolidateData`: look up or create
the incident keyed by `row.incidentNumber`, then append a non-empty, not yet
present `unitNumber` to its `units`. -/
def consolidateStep (m : List (String × Incident)) (row : CallRow) :
    List (String × Incident) :=
  let m1 := if alHas m row.incidentNumber then m
            else alSet m row.incidentNumber (Incident.ofRow row)
  match row.unitNumber with
  | some u =>
      if u = "" then m1
      else alUpdate m1 row.incidentNumber (fun incident =>
        if u ∈ incident.units then incident
        else { incident with units := incident.units ++ [u] })
  | none => m1

/-- `consolidateData(rows)` (src/public/app.js:107-137): group rows into one
incident per `incidentNumber` key, then finalize `unitCount := units.length`. -/
def consolidateData (rows : List CallRow) : List Incident :=
  let mapByInc := rows.foldl consolidateStep []
  (alValues mapByInc).map (fun inc => { inc with unitCount := inc.units.length })

/-- The non-empty `unitNumber` carried by a row, if any (`if (row.unitNumber)`). -/
def truthyUnitOf (r : CallRow) : Option String :=
  match r.unitNumber with
  | some u => if u = "" then none else some u
  | none => none

/-- The rows of `rows` belonging to incident key `k`. -/
def rowsFor (rows : List CallRow) (k : String) : List CallRow :=
  rows.filter (fun r => r.incidentNumber == k)

/-- The distinct non-empty unit numbers of the rows of incident `k`,
in first-appearance order. -/
def unitsFor (rows : List CallRow) (k : String) : List String :=
  firstDedup ((rowsFor rows k).filterMap truthyUnitOf)

/-- The first row seen with incident key `k`. -/
def firstRowFor (rows : List CallRow) (k : String) : CallRow :=
  (rowsFor rows k).headD default

/-- The map entry held for key `k` while folding over `rows`: scalars from the
first row with that key, `units` accumulated, `unitCount` still 0. -/
def pEntry (rows : List CallRow) (k : String) : Incident :=
  { Incident.ofRow (firstRowFor rows k) with units := unitsFor rows k }

/-- The finalized incident for key `k`. -/
def finalEntry (rows : List CallRow) (k : String) : Incident :=
  { Incident.ofRow (firstRowFor rows k) with
      units := unitsFor rows k
      unitCount := (unitsFor rows k).length }

/-! ### Properties of first-seen deduplication -/

theorem mem_insertIfNew {α : Type} [DecidableEq α] (acc : List α) (a b : α) :
    a ∈ insertIfNew acc b ↔ a ∈ acc ∨ a = b := by
  unfold insertIfNew
  split
  · next hb =>
    constructor
    · exact fun h => Or.inl h
    · rintro (h | rfl)
      · exact h
      · exact hb
  · simp [List.mem_append]

theorem mem_foldl_insertIfNew {α : Type} [DecidableEq α] (l : List α) (acc : List α) (a : α) :
    a ∈ l.foldl insertIfNew acc ↔ a ∈ acc ∨ a ∈ l := by
  induction l generalizing acc with
  | nil => simp
  | cons b t ih =>
    rw [List.foldl_cons, ih, mem_insertIfNew, List.mem_cons]
    tauto

theorem mem_firstDedup {α : Type} [DecidableEq α] (l : List α) (a : α) :
    a ∈ firstDedup l ↔ a ∈ l := by
  simp [firstDedup, mem_foldl_insertIfNew]

theorem nodup_insertIfNew {α : Type} [DecidableEq α] (acc : List α) (a : α)
    (h : acc.Nodup) : (insertIfNew acc a).Nodup := by
  unfold insertIfNew
  split
  · exact h
  · next ha =>
    rw [List.nodup_append]
    exact ⟨h, List.nodup_singleton a, by
      intro x hx hx'
      simp only [List.mem_singleton] at hx'
      exact ha (hx' ▸ hx)⟩

theorem nodup_foldl_insertIfNew {α : Type} [DecidableEq α] (l : List α) (acc : List α)
    (h : acc.Nodup) : (l.foldl insertIfNew acc).Nodup := by
  induction l generalizing acc with
  | nil => exact h
  | cons b t ih => exact ih _ (nodup_insertIfNew acc b h)

theorem nodup_firstDedup {α : Type} [DecidableEq α] (l : List α) :
    (firstDedup l).Nodup :=
  nodup_foldl_insertIfNew l [] List.nodup_nil

theorem firstDedup_concat {α : Type} [DecidableEq α] (l : List α) (a : α) :
    firstDedup (l ++ [a]) = insertIfNew (firstDedup l) a := by
  simp [firstDedup, List.foldl_append]

/-! ### Properties of the JS-Map association lists -/

theorem alHas_iff {α : Type} (m : List (String × α)) (k : String) :
    alHas m k = true ↔ k ∈ m.map (·.1) := by
  simp [alHas, List.any_eq_true, List.mem_map, beq_iff_eq]

theorem alSet_of_not_has {α : Type} (m : List (String × α)) (k : String) (v : α)
    (h : alHas m k = false) : alSet m k v = m ++ [(k, v)] := by
  simp [alSet, h]

/-! ### Characterization of `consolidateData` -/

theorem rowsFor_append (rows : List CallRow) (r : CallRow) (k : String) :
    rowsFor (rows ++ [r]) k =
      rowsFor rows k ++ (if r.incidentNumber = k then [r] else []) := by
  unfold rowsFor
  rw [List.filter_append]
  congr 1
  by_cases h : r.incidentNumber = k
  · simp [h]
  · simp [h]

theorem rowsFor_ne_nil_iff (rows : List CallRow) (k : String) :
    rowsFor rows k ≠ [] ↔ k ∈ rows.map (·.incidentNumber) := by
  unfold rowsFor
  rw [Ne, List.filter_eq_nil_iff]
  simp only [beq_iff_eq, List.mem_map, not_forall]
  constructor
  · rintro ⟨r, hr, hk⟩
    simp only [not_not] at hk
    exact ⟨r, hr, hk⟩
  · rintro ⟨r, hr, hk⟩
    exact ⟨r, hr, by simp [hk]⟩

theorem pEntry_append_ne (rows : List CallRow) (r : CallRow) (k : String)
    (h : r.incidentNumber ≠ k) : pEntry (rows ++ [r]) k = pEntry rows k := by
  unfold pEntry firstRowFor unitsFor
  rw [rowsFor_append, if_neg h, List.append_nil]

theorem unitsFor_append_self (rows : List CallRow) (r : CallRow) :
    unitsFor (rows ++ [r]) r.incidentNumber =
      match truthyUnitOf r with
      | some u => insertIfNew (unitsFor rows r.incidentNumber) u
      | none => unitsFor rows r.incidentNumber := by
  unfold unitsFor
  rw [rowsFor_append, if_pos rfl, List.filterMap_append]
  cases h : truthyUnitOf r with
  | none => simp [List.filterMap, h]
  | some u =>
    have : List.filterMap truthyUnitOf [r] = [u] := by simp [List.filterMap, h]
    rw [this, firstDedup_concat]

theorem firstRowFor_append_self_of_mem (rows : List CallRow) (r : CallRow)
    (h : r.incidentNumber ∈ rows.map (·.incidentNumber)) :
    firstRowFor (rows ++ [r]) r.incidentNumber = firstRowFor rows r.incidentNumber := by
  unfold firstRowFor
  rw [rowsFor_append, if_pos rfl]
  cases hrf : rowsFor rows r.incidentNumber with
  | nil => exact absurd hrf (by simpa using (rowsFor_ne_nil_iff rows r.incidentNumber).mpr h)
  | cons hd tl => simp

theorem pEntry_append_self_of_mem (rows : List CallRow) (r : CallRow)
    (h : r.incidentNumber ∈ rows.map (·.incidentNumber)) :
    pEntry (rows ++ [r]) r.incidentNumber =
      match truthyUnitOf r with
      | some u =>
          { pEntry rows r.incidentNumber with
              units := insertIfNew (pEntry rows r.incidentNumber).units u }
      | none => pEntry rows r.incidentNumber := by
  unfold pEntry
  rw [firstRowFor_append_self_of_mem rows r h, unitsFor_append_self]
  cases truthyUnitOf r with
  | none => rfl
  | some u => rfl

theorem pEntry_append_self_of_not_mem (rows : List CallRow) (r : CallRow)
    (h : r.incidentNumber ∉ rows.map (·.incidentNumber)) :
    pEntry (rows ++ [r]) r.incidentNumber =
      match truthyUnitOf r with
      | some u => { Incident.ofRow r with units := [u] }
      | none => Incident.ofRow r := by
  have hnil : rowsFor rows r.incidentNumber = [] := by
    by_contra hne
    exact h ((rowsFor_ne_nil_iff rows r.incidentNumber).mp hne)
  unfold pEntry firstRowFor unitsFor
  rw [rowsFor_append, if_pos rfl, hnil]
  cases hu : truthyUnitOf r with
  | none =>
    simp [List.filterMap, hu, firstDedup]
    rfl
  | some u =>
    simp [List.filterMap, hu, firstDedup, insertIfNew]

theorem consolidateStep_of_has (m : List (String × Incident)) (row : CallRow)
    (h : alHas m row.incidentNumber = true) :
    consolidateStep m row =
      match truthyUnitOf row with
      | some u => alUpdate m row.incidentNumber (fun incident =>
          if u ∈ incident.units then incident
          else { incident with units := incident.units ++ [u] })
      | none => m := by
  unfold consolidateStep truthyUnitOf
  rw [h]
  cases hu : row.unitNumber with
  | none => simp
  | some u =>
    by_cases h0 : u = ""
    · simp [h0]
    · simp [h0]

theorem consolidateStep_of_not_has (m : List (String × Incident)) (row : CallRow)
    (h : alHas m row.incidentNumber = false) :
    consolidateStep m row =
      match truthyUnitOf row with
      | some u => alUpdate (m ++ [(row.incidentNumber, Incident.ofRow row)])
          row.incidentNumber (fun incident =>
            if u ∈ incident.units then incident
            else { incident with units := incident.units ++ [u] })
      | none => m ++ [(row.incidentNumber, Incident.ofRow row)] := by
  unfold consolidateStep truthyUnitOf
  rw [h, alSet_of_not_has m _ _ h]
  cases hu : row.unitNumber with
  | none => simp
  | some u =>
    by_cases h0 : u = ""
    · simp [h0]
    · simp [h0]

theorem unitPush_eq_insertIfNew (u : String) (inc : Incident) :
    (if u ∈ inc.units then inc else { inc with units := inc.units ++ [u] })
      = { inc with units := insertIfNew inc.units u } := by
  unfold insertIfNew
  split
  · rfl
  · rfl


theorem consolidateStep_has_none (m : List (String × Incident)) (row : CallRow)
    (h : alHas m row.incidentNumber = true) (htu : truthyUnitOf row = none) :
    consolidateStep m row = m := by
  rw [consolidateStep_of_has m row h, htu]

theorem consolidateStep_has_some (m : List (String × Incident)) (row : CallRow) (u : String)
    (h : alHas m row.incidentNumber = true) (htu : truthyUnitOf row = some u) :
    consolidateStep m row = alUpdate m row.incidentNumber (fun incident =>
      if u ∈ incident.units then incident
      else { incident with units := incident.units ++ [u] }) := by
  rw [consolidateStep_of_has m row h, htu]

theorem consolidateStep_new_none (m : List (String × Incident)) (row : CallRow)
    (h : alHas m row.incidentNumber = false) (htu : truthyUnitOf row = none) :
    consolidateStep m row = m ++ [(row.incidentNumber, Incident.ofRow row)] := by
  rw [consolidateStep_of_not_has m row h, htu]

theorem consolidateStep_new_some (m : List (String × Incident)) (row : CallRow) (u : String)
    (h : alHas m row.incidentNumber = false) (htu : truthyUnitOf row = some u) :
    consolidateStep m row = alUpdate (m ++ [(row.incidentNumber, Incident.ofRow row)])
      row.incidentNumber (fun incident =>
        if u ∈ incident.units then incident
        else { incident with units := incident.units ++ [u] }) := by
  rw [consolidateStep_of_not_has m row h, htu]

theorem unitsFor_append_self_none (rows : List CallRow) (r : CallRow)
    (htu : truthyUnitOf r = none) :
    unitsFor (rows ++ [r]) r.incidentNumber = unitsFor rows r.incidentNumber := by
  rw [unitsFor_append_self, htu]

theorem unitsFor_append_self_some (rows : List CallRow) (r : CallRow) (u : String)
    (htu : truthyUnitOf r = some u) :
    unitsFor (rows ++ [r]) r.incidentNumber
      = insertIfNew (unitsFor rows r.incidentNumber) u := by
  rw [unitsFor_append_self, htu]

theorem pEntry_mem_none (rows : List CallRow) (r : CallRow)
    (h : r.incidentNumber ∈ rows.map (·.incidentNumber)) (htu : truthyUnitOf r = none) :
    pEntry (rows ++ [r]) r.incidentNumber = pEntry rows r.incidentNumber := by
  unfold pEntry
  rw [firstRowFor_append_self_of_mem rows r h, unitsFor_append_self_none rows r htu]

theorem pEntry_mem_some (rows : List CallRow) (r : CallRow) (u : String)
    (h : r.incidentNumber ∈ rows.map (·.incidentNumber)) (htu : truthyUnitOf r = some u) :
    pEntry (rows ++ [r]) r.incidentNumber
      = { pEntry rows r.incidentNumber with
            units := insertIfNew (pEntry rows r.incidentNumber).units u } := by
  unfold pEntry
  rw [firstRowFor_append_self_of_mem rows r h, unitsFor_append_self_some rows r u htu]

theorem pEntry_new_none (rows : List CallRow) (r : CallRow)
    (h : r.incidentNumber ∉ rows.map (·.incidentNumber)) (htu : truthyUnitOf r = none) :
    pEntry (rows ++ [r]) r.incidentNumber = Incident.ofRow r := by
  rw [pEntry_append_self_of_not_mem rows r h, htu]

theorem pEntry_new_some (rows : List CallRow) (r : CallRow) (u : String)
    (h : r.incidentNumber ∉ rows.map (·.incidentNumber)) (htu : truthyUnitOf r = some u) :
    pEntry (rows ++ [r]) r.incidentNumber = { Incident.ofRow r with units := [u] } := by
  rw [pEntry_append_self_of_not_mem rows r h, htu]

theorem alUpdate_map_entries (l : List String) (g : String → Incident) (k : String)
    (f : Incident → Incident) :
    alUpdate (l.map (fun x => (x, g x))) k f
      = l.map (fun x => (x, if x = k then f (g x) else g x)) := by
  unfold alUpdate
  rw [List.map_map]
  apply List.map_congr_left
  intro x _
  by_cases h : x = k
  · simp [h]
  · simp [h]

theorem consolidateStep_spec (rows : List CallRow) (r : CallRow) :
    consolidateStep
        ((firstDedup (rows.map (·.incidentNumber))).map (fun k => (k, pEntry rows k))) r
      = (insertIfNew (firstDedup (rows.map (·.incidentNumber))) r.incidentNumber).map
          (fun k => (k, pEntry (rows ++ [r]) k)) := by
  by_cases hmem : r.incidentNumber ∈ rows.map (·.incidentNumber)
  · have hmem' : r.incidentNumber ∈ firstDedup (rows.map (·.incidentNumber)) :=
      (mem_firstDedup _ _).mpr hmem
    have hins : insertIfNew (firstDedup (rows.map (·.incidentNumber))) r.incidentNumber
        = firstDedup (rows.map (·.incidentNumber)) := by
      unfold insertIfNew
      rw [if_pos hmem']
    have hhas : alHas ((firstDedup (rows.map (·.incidentNumber))).map
        (fun k => (k, pEntry rows k))) r.incidentNumber = true := by
      rw [alHas_iff]
      simpa [List.map_map] using hmem'
    rw [hins]
    cases htu : truthyUnitOf r with
    | none =>
      rw [consolidateStep_has_none _ _ hhas htu]
      apply List.map_congr_left
      intro k' hk'
      by_cases hk : r.incidentNumber = k'
      · subst hk
        rw [pEntry_mem_none rows r hmem htu]
      · rw [pEntry_append_ne rows r k' hk]
    | some u =>
      rw [consolidateStep_has_some _ _ u hhas htu, alUpdate_map_entries]
      apply List.map_congr_left
      intro k' hk'
      by_cases hk : k' = r.incidentNumber
      · subst hk
        rw [if_pos rfl]
        simp only [unitPush_eq_insertIfNew]
        rw [pEntry_mem_some rows r u hmem htu]
      · rw [if_neg hk, pEntry_append_ne rows r k' (fun hcon => hk hcon.symm)]
  · have hmem' : r.incidentNumber ∉ firstDedup (rows.map (·.incidentNumber)) := by
      rw [mem_firstDedup]
      exact hmem
    have hins : insertIfNew (firstDedup (rows.map (·.incidentNumber))) r.incidentNumber
        = firstDedup (rows.map (·.incidentNumber)) ++ [r.incidentNumber] := by
      unfold insertIfNew
      rw [if_neg hmem']
    have hhas : alHas ((firstDedup (rows.map (·.incidentNumber))).map
        (fun k => (k, pEntry rows k))) r.incidentNumber = false := by
      rw [← Bool.not_eq_true, alHas_iff]
      simpa [List.map_map] using hmem'
    have hcommon : ∀ k' ∈ firstDedup (rows.map (·.incidentNumber)),
        pEntry (rows ++ [r]) k' = pEntry rows k' := by
      intro k' hk'
      exact pEntry_append_ne rows r k' (fun hcon => hmem' (hcon ▸ hk'))
    rw [hins, List.map_append]
    cases htu : truthyUnitOf r with
    | none =>
      rw [consolidateStep_new_none _ _ hhas htu]
      congr 1
      · apply List.map_congr_left
        intro k' hk'
        rw [hcommon k' hk']
      · simp only [List.map_cons, List.map_nil]
        rw [pEntry_new_none rows r hmem htu]
    | some u =>
      rw [consolidateStep_new_some _ _ u hhas htu]
      unfold alUpdate
      rw [List.map_append]
      congr 1
      · rw [List.map_map]
        apply List.map_congr_left
        intro k' hk'
        have hne : k' ≠ r.incidentNumber := fun hcon => hmem' (hcon ▸ hk')
        simp only [Function.comp_apply]
        rw [if_neg (by simp [hne]), hcommon k' hk']
      · simp only [List.map_cons, List.map_nil]
        rw [pEntry_new_some rows r u hmem htu]
        simp [Incident.ofRow]

theorem consolidate_fold_eq (rows : List CallRow) :
    rows.foldl consolidateStep [] =
      (firstDedup (rows.map (·.incidentNumber))).map (fun k => (k, pEntry rows k)) := by
  induction rows using List.reverseRecOn with
  | nil => rfl
  | append_singleton rows r ih =>
    rw [List.foldl_append, List.foldl_cons, List.foldl_nil, ih, consolidateStep_spec]
    congr 1
    have hmap : (rows ++ [r]).map (·.incidentNumber)
        = rows.map (·.incidentNumber) ++ [r.incidentNumber] := by simp
    rw [hmap, firstDedup_concat]

/-- `consolidateData` computed in closed form: one finalized incident per
first-seen incident key, in first-appearance order. -/
theorem consolidateData_eq (rows : List CallRow) :
    consolidateData rows =
      (firstDedup (rows.map (·.incidentNumber))).map (finalEntry rows) := by
  unfold consolidateData alValues
  rw [consolidate_fold_eq, List.map_map, List.map_map]
  apply List.map_congr_left
  intro k hk
  simp only [Function.comp_apply]
  unfold pEntry finalEntry
  rfl

theorem firstRowFor_incidentNumber (rows : List CallRow) (k : String)
    (h : k ∈ rows.map (·.incidentNumber)) :
    (firstRowFor rows k).incidentNumber = k := by
  have hne : rowsFor rows k ≠ [] := (rowsFor_ne_nil_iff rows k).mpr h
  unfold firstRowFor
  cases hrf : rowsFor rows k with
  | nil => exact absurd hrf hne
  | cons hd tl =>
    have hmem : hd ∈ rowsFor rows k := by
      rw [hrf]
      exact List.mem_cons_self hd tl
    unfold rowsFor at hmem
    have hpred := List.of_mem_filter hmem
    simp only [List.headD_cons]
    exact beq_iff_eq.mp hpred

theorem finalEntry_incidentNumber (rows : List CallRow) (k : String)
    (h : k ∈ rows.map (·.incidentNumber)) :
    (finalEntry rows k).incidentNumber = k :=
  firstRowFor_incidentNumber rows k h

/-- The incident keys of the consolidated output are exactly the first-seen
deduplication of the row keys, in order. -/
theorem consolidate_keys (rows : List CallRow) :
    (consolidateData rows).map (·.incidentNumber)
      = firstDedup (rows.map (·.incidentNumber)) := by
  rw [consolidateData_eq, List.map_map]
  have hcong : ∀ k ∈ firstDedup (rows.map (·.incidentNumber)),
      ((·.incidentNumber) ∘ finalEntry rows) k = k := by
    intro k hk
    exact finalEntry_incidentNumber rows k ((mem_firstDedup _ _).mp hk)
  rw [List.map_congr_left hcong, List.map_id']

/-- Per-key multiplicity in the consolidated output. -/
theorem consolidate_count_key (rows : List CallRow) (k : String) :
    ((consolidateData rows).filter (fun i => i.incidentNumber == k)).length
      = if k ∈ rows.map (·.incidentNumber) then 1 else 0 := by
  rw [← List.countP_eq_length_filter]
  have h2 : (consolidateData rows).countP (fun i => i.incidentNumber == k)
      = ((consolidateData rows).map (·.incidentNumber)).countP (· == k) := by
    rw [List.countP_map]
    rfl
  rw [h2, consolidate_keys]
  show (firstDedup (rows.map (·.incidentNumber))).count k = _
  by_cases hmem : k ∈ rows.map (·.incidentNumber)
  · rw [if_pos hmem]
    exact List.count_eq_one_of_mem (nodup_firstDedup _) ((mem_firstDedup _ _).mpr hmem)
  · rw [if_neg hmem]
    exact List.count_eq_zero_of_not_mem (fun hc => hmem ((mem_firstDedup _ _).mp hc))

theorem truthyUnitOf_eq_none_of_not_truthy (r : CallRow)
    (h : (!truthyStr r.unitNumber) = true) : truthyUnitOf r = none := by
  unfold truthyUnitOf
  unfold truthyStr at h
  cases hu : r.unitNumber with
  | none => rfl
  | some u =>
    rw [hu] at h
    simp only [bne, Bool.not_not] at h
    simp [beq_iff_eq.mp h]

/-- A blank backend row; concrete rows below override the relevant fields. -/
def blankRow : CallRow :=
  { incidentNumber := ""
    natureOfCall := none
    division := none
    beat := none
    unitNumber := none
    status := none
    address := none
    location := none
    priority := none
    date := none
    time := none
    lat := none
    lon := none }

/-- The three-row example of spec §8. -/
def exampleRows : List CallRow :=
  [ { blankRow with
      incidentNumber := "A1"
      unitNumber := some "101"
      lat := some 1
      lon := some 2
      division := some "C"
      priority := some "1"
      natureOfCall := some "Fire" },
    { blankRow with
      incidentNumber := "A1"
      unitNumber := some "102" },
    { blankRow with
      incidentNumber := "B2"
      unitNumber := some "201"
      division := some "D"
      priority := some "3" } ]

/-- A row set with two empty-key rows around a normal one. -/
def emptyKeyRows : List CallRow :=
  [ { blankRow with
      incidentNumber := ""
      natureOfCall := some "Check"
      unitNumber := some "501" },
    { blankRow with
      incidentNumber := "Z9"
      unitNumber := some "502" },
    { blankRow with
      incidentNumber := ""
      unitNumber := some "503" } ]

/-- A single-incident row set where no row carries a unit number. -/
def noUnitRows : List CallRow :=
  [ { blankRow with incidentNumber := "N1" } ]

/-- C1: for every input row list, `consolidateData` returns exactly one Incident
per distinct non-empty incident number, the output order is the first-appearance
order of incident numbers in the input, and every scalar field of each Incident
equals the corresponding field of the first row seen with that incident number
(later rows with the same incident number never overwrite scalar fields). -/
theorem c1_consolidate_one_per_key_first_seen (rows : List CallRow) :
    (∀ k : String, k ≠ "" →
        ((consolidateData rows).filter (fun i => i.incidentNumber == k)).length
          = if k ∈ rows.map (·.incidentNumber) then 1 else 0)
    ∧ (consolidateData rows).map (·.incidentNumber)
        = firstDedup (rows.map (·.incidentNumber))
    ∧ ∀ inc ∈ consolidateData rows,
        inc.scalars = firstRowFor rows inc.incidentNumber := by
  refine ⟨fun k _ => consolidate_count_key rows k, consolidate_keys rows, ?_⟩
  intro inc hinc
  rw [consolidateData_eq] at hinc
  obtain ⟨k, hk, rfl⟩ := List.mem_map.mp hinc
  rw [finalEntry_incidentNumber rows k ((mem_firstDedup _ _).mp hk)]
  rfl

theorem c1_consolidate_witness :
    (((consolidateData exampleRows).filter (fun i => i.incidentNumber == "A1")).length
        = if "A1" ∈ exampleRows.map (·.incidentNumber) then 1 else 0)
    ∧ ((consolidateData exampleRows).headD default).scalars
        = firstRowFor exampleRows
            ((consolidateData exampleRows).headD default).incidentNumber :=
  ⟨(c1_consolidate_one_per_key_first_seen exampleRows).1 "A1" (by decide),
   (c1_consolidate_one_per_key_first_seen exampleRows).2.2 _ (by decide)⟩

/-- C2: for every Incident produced by `consolidateData`, `unitCount` equals
`units.length`, `units` has no duplicates, its order is the first-appearance
order of unit numbers across the incident's rows (rows with missing/empty
`unitNumber` contributing nothing), and an incident all of whose rows lack a
unit number has `units = []` and `unitCount = 0`. -/
theorem c2_units_invariants (rows : List CallRow) :
    ∀ inc ∈ consolidateData rows,
      inc.unitCount = inc.units.length
      ∧ inc.units.Nodup
      ∧ inc.units = firstDedup ((rowsFor rows inc.incidentNumber).filterMap truthyUnitOf)
      ∧ ((rowsFor rows inc.incidentNumber).all (fun r => !truthyStr r.unitNumber) = true →
          inc.units = [] ∧ inc.unitCount = 0) := by
  intro inc hinc
  rw [consolidateData_eq] at hinc
  obtain ⟨k, hk, rfl⟩ := List.mem_map.mp hinc
  have hk' : k ∈ rows.map (·.incidentNumber) := (mem_firstDedup _ _).mp hk
  rw [finalEntry_incidentNumber rows k hk']
  refine ⟨rfl, nodup_firstDedup _, rfl, ?_⟩
  intro hall
  have hnil : (rowsFor rows k).filterMap truthyUnitOf = [] := by
    rw [List.filterMap_eq_nil_iff]
    intro r hr
    exact truthyUnitOf_eq_none_of_not_truthy r (List.all_eq_true.mp hall r hr)
  constructor
  · show unitsFor rows k = []
    unfold unitsFor
    rw [hnil]
    rfl
  · show (unitsFor rows k).length = 0
    unfold unitsFor
    rw [hnil]
    rfl

theorem c2_units_witness :
    (((consolidateData exampleRows).headD default).unitCount
        = ((consolidateData exampleRows).headD default).units.length)
    ∧ (((consolidateData noUnitRows).headD default).units = []
        ∧ ((consolidateData noUnitRows).headD default).unitCount = 0) :=
  ⟨(c2_units_invariants exampleRows _ (by decide)).1,
   (c2_units_invariants noUnitRows _ (by decide)).2.2.2 (by decide)⟩

/-- C9 (implicit): all rows whose incident number is missing/empty are grouped
into a single Incident keyed by the empty value — neither dropped nor made
singleton incidents — whose scalar fields come from the first such row and
whose `units` aggregate the distinct non-empty unit numbers of all such rows. -/
theorem c9_missing_incident_number_grouped (rows : List CallRow)
    (h : "" ∈ rows.map (·.incidentNumber)) :
    ((consolidateData rows).filter (fun i => i.incidentNumber == "")).length = 1
    ∧ ∀ inc ∈ consolidateData rows, inc.incidentNumber = "" →
        inc.scalars = firstRowFor rows ""
        ∧ inc.units = firstDedup ((rowsFor rows "").filterMap truthyUnitOf)
        ∧ inc.unitCount
            = (firstDedup ((rowsFor rows "").filterMap truthyUnitOf)).length := by
  constructor
  · rw [consolidate_count_key rows "", if_pos h]
  · intro inc hinc hempty
    rw [consolidateData_eq] at hinc
    obtain ⟨k, hk, rfl⟩ := List.mem_map.mp hinc
    have hk' : k ∈ rows.map (·.incidentNumber) := (mem_firstDedup _ _).mp hk
    rw [finalEntry_incidentNumber rows k hk'] at hempty
    subst hempty
    exact ⟨rfl, rfl, rfl⟩

theorem c9_missing_incident_witness :
    (((consolidateData emptyKeyRows).filter (fun i => i.incidentNumber == "")).length = 1)
    ∧ ((consolidateData emptyKeyRows).headD default).scalars
        = firstRowFor emptyKeyRows "" :=
  ⟨(c9_missing_incident_number_grouped emptyKeyRows (by decide)).1,
   ((c9_missing_incident_number_grouped emptyKeyRows (by decide)).2 _
      (by decide) (by decide)).1⟩

/-! ### Filter Engine (`getFilteredCalls`, src/public/app.js:141-165) -/

/-- `getFilteredCalls()` (src/public/app.js:141-165), with the two DOM inputs
(`divisionFilter.value`, `searchInput.value`) passed explicitly.  The search
key is `searchInput.value.toLowerCase().trim()` (modeled by `jsTrim` / `jsToLower`). -/
def getFilteredCalls (consolidatedCalls : List Incident)
    (divisionValue searchRaw : String) : List Incident :=
  let division := divisionValue
  let search := jsTrim (jsToLower searchRaw)
  consolidatedCalls.filter (fun call =>
    if division != "all" && call.division != some division then false
    else if search != "" then
      if !jsIncludes (jsToLower (strOrS call.incidentNumber "")) search
          && !jsIncludes (jsToLower (strOr call.address (strOr call.location ""))) search
          && !jsIncludes (jsToLower (strOr call.natureOfCall "")) search
          && !jsIncludes (jsToLower (joinSpace call.units)) search
      then false
      else true
    else true)

/-- The division predicate as the spec states it: pass iff the selected division
is `"all"` or the incident's division matches it exactly (case-sensitive). -/
def divisionPass (divisionValue : String) (call : Incident) : Bool :=
  divisionValue == "all" || call.division == some divisionValue

/-- The search predicate as the spec states it: the trimmed, case-folded search
text is empty, or it occurs in the case-folded incident number, resolved
location (address with fallback to location), nature of call, or space-joined
unit list. -/
def searchPass (searchRaw : String) (call : Incident) : Bool :=
  jsTrim (jsToLower searchRaw) == ""
    || jsIncludes (jsToLower (strOrS call.incidentNumber "")) (jsTrim (jsToLower searchRaw))
    || jsIncludes (jsToLower (strOr call.address (strOr call.location "")))
        (jsTrim (jsToLower searchRaw))
    || jsIncludes (jsToLower (strOr call.natureOfCall "")) (jsTrim (jsToLower searchRaw))
    || jsIncludes (jsToLower (joinSpace call.units)) (jsTrim (jsToLower searchRaw))

theorem getFilteredCalls_eq_filter (calls : List Incident)
    (divisionValue searchRaw : String) :
    getFilteredCalls calls divisionValue searchRaw
      = calls.filter (fun c => divisionPass divisionValue c && searchPass searchRaw c) := by
  unfold getFilteredCalls
  apply List.filter_congr
  intro c _
  unfold divisionPass searchPass
  simp only [bne, ← Bool.cond_eq_ite]
  generalize (divisionValue == "all") = p
  generalize (c.division == some divisionValue) = q
  generalize (jsTrim (jsToLower searchRaw) == "") = r
  generalize jsIncludes (jsToLower (strOrS c.incidentNumber ""))
    (jsTrim (jsToLower searchRaw)) = a
  generalize jsIncludes (jsToLower (strOr c.address (strOr c.location "")))
    (jsTrim (jsToLower searchRaw)) = b
  generalize jsIncludes (jsToLower (strOr c.natureOfCall ""))
    (jsTrim (jsToLower searchRaw)) = d
  generalize jsIncludes (jsToLower (joinSpace c.units)) (jsTrim (jsToLower searchRaw)) = e
  cases p <;> cases q <;> cases r <;> cases a <;> cases b <;> cases d <;> cases e <;> rfl

/-- C3: for every incident list and filter state, `getFilteredCalls` returns
exactly the incidents, in input order, satisfying BOTH the division predicate
(`"all"` or exact, case-sensitive match) AND the search predicate (trimmed,
case-folded search text empty, or a substring of the case-folded incident
number, resolved location, nature of call, or space-joined unit list); in the
pure embedding the input list is untouched and the output is a sublist of it. -/
theorem c3_filter_division_and_search (calls : List Incident)
    (divisionValue searchRaw : String) :
    getFilteredCalls calls divisionValue searchRaw
      = calls.filter (fun c => divisionPass divisionValue c && searchPass searchRaw c)
    ∧ List.Sublist (getFilteredCalls calls divisionValue searchRaw) calls := by
  refine ⟨getFilteredCalls_eq_filter calls divisionValue searchRaw, ?_⟩
  rw [getFilteredCalls_eq_filter]
  exact List.filter_sublist _

/-! ### Marker Synchronizer (`updateMarkers`, src/public/app.js:167-224) -/

/-- `getPriorityColor` over the app.js `PRIORITY_COLORS` table. -/
def getPriorityColor (p : Option String) : String :=
  match p with
  | some "1" => "#ff3344"
  | some "2" => "#ff8833"
  | some "3" => "#ffcc00"
  | some "4" => "#00cc66"
  | _ => "#5599ff"

/-- A circle marker as created by `updateMarkers` (position, radius, stroke and
fill colors; opacity and the popup HTML are presentation detail). -/
structure Marker where
  pos : Option Int × Option Int
  radius : Nat
  color : String
  fillColor : String
deriving Repr, DecidableEq, Inhabited

/-- The `L.circleMarker` built for one call (src/public/app.js:176-186):
priority 1 gets radius 12, anything else radius 8; fill keyed by priority. -/
def mkMarker (call : Incident) : Marker :=
  { pos := (call.lat, call.lon)
    radius := if call.priority == some "1" then 12 else 8
    color := "#ffffff"
    fillColor := getPriorityColor call.priority }

/-- The predicate `c.lat != null && c.lon != null` of src/public/app.js:173. -/
def markerEligible (c : Incident) : Bool :=
  c.lat.isSome && c.lon.isSome

/-- The truthiness test `c.lat && c.lon` used by `updateStats`, `renderList`,
`focusCall` and the first-load fit (src/public/app.js:274,238,305,336). -/
def incidentTruthyMapped (c : Incident) : Bool :=
  truthyCoord c.lat && truthyCoord c.lon

/-- The marker layer plus the `markersByIncident` lookup map. -/
structure MarkerSyncState where
  markerLayer : List Marker
  markersByIncident : List (String × Marker)
deriving Repr, DecidableEq, Inhabited

/-- Body of the `mapped.forEach` in `updateMarkers`: create the marker, add it
to the layer and enter it into `markersByIncident`. -/
def updateMarkersStep (s : MarkerSyncState) (call : Incident) : MarkerSyncState :=
  { markerLayer := s.markerLayer ++ [mkMarker call]
    markersByIncident := alSet s.markersByIncident call.incidentNumber (mkMarker call) }

/-- `updateMarkers(visibleCalls)` (src/public/app.js:167-224): clear the layer
and the lookup, then add one marker per visible call with both coordinates
non-null. -/
def updateMarkers (_st : MarkerSyncState) (visibleCalls : List Incident) :
    MarkerSyncState :=
  let cleared : MarkerSyncState := { markerLayer := [], markersByIncident := [] }
  let mapped := visibleCalls.filter markerEligible
  mapped.foldl updateMarkersStep cleared

theorem markers_foldl_build (calls : List Incident) (layer : List Marker)
    (byInc : List (String × Marker))
    (hdisj : ∀ c ∈ calls, alHas byInc c.incidentNumber = false)
    (hnodup : (calls.map (·.incidentNumber)).Nodup) :
    calls.foldl updateMarkersStep ⟨layer, byInc⟩
      = ⟨layer ++ calls.map mkMarker,
         byInc ++ calls.map (fun c => (c.incidentNumber, mkMarker c))⟩ := by
  induction calls generalizing layer byInc with
  | nil => simp
  | cons c t ih =>
    rw [List.foldl_cons]
    have hstep : updateMarkersStep ⟨layer, byInc⟩ c
        = ⟨layer ++ [mkMarker c], byInc ++ [(c.incidentNumber, mkMarker c)]⟩ := by
      unfold updateMarkersStep
      rw [alSet_of_not_has byInc c.incidentNumber (mkMarker c)
        (hdisj c (List.mem_cons_self c t))]
    have hnodup' : c.incidentNumber ∉ t.map (·.incidentNumber)
        ∧ (t.map (·.incidentNumber)).Nodup := by
      rw [List.map_cons] at hnodup
      exact List.nodup_cons.mp hnodup
    have hxc : ∀ x ∈ t, x.incidentNumber ≠ c.incidentNumber := by
      intro x hx hcon
      exact hnodup'.1 (hcon ▸ List.mem_map_of_mem (·.incidentNumber) hx)
    have hd : ∀ x ∈ t,
        alHas (byInc ++ [(c.incidentNumber, mkMarker c)]) x.incidentNumber = false := by
      intro x hx
      unfold alHas
      rw [List.any_append]
      have h1 : byInc.any (fun e => e.1 == x.incidentNumber) = false :=
        hdisj x (List.mem_cons_of_mem c hx)
      have h2 : (c.incidentNumber == x.incidentNumber) = false := by
        simp only [beq_eq_false_iff_ne, Ne]
        exact fun hcon => hxc x hx hcon.symm
      simp [h1, h2]
    rw [hstep, ih (layer ++ [mkMarker c]) (byInc ++ [(c.incidentNumber, mkMarker c)]) hd
      hnodup'.2]
    simp [List.append_assoc]

/-- C4: every call to `updateMarkers` fully rebuilds the layer and the lookup:
afterwards they hold exactly one marker per visible incident with both
coordinates non-null, keyed by incident number, in order; incidents without
both coordinates get no marker; and the result is independent of whatever
markers existed before the call. -/
theorem c4_updateMarkers_full_rebuild (st : MarkerSyncState) (visible : List Incident)
    (hnodup : ((visible.filter markerEligible).map (·.incidentNumber)).Nodup) :
    (updateMarkers st visible).markerLayer = (visible.filter markerEligible).map mkMarker
    ∧ (updateMarkers st visible).markersByIncident
        = (visible.filter markerEligible).map (fun c => (c.incidentNumber, mkMarker c))
    ∧ ∀ st' : MarkerSyncState, updateMarkers st' visible = updateMarkers st visible := by
  have h := markers_foldl_build (visible.filter markerEligible) [] []
    (fun c _ => rfl) hnodup
  have hu : ∀ s : MarkerSyncState, updateMarkers s visible
      = ⟨(visible.filter markerEligible).map mkMarker,
         (visible.filter markerEligible).map (fun c => (c.incidentNumber, mkMarker c))⟩ := by
    intro s
    show (visible.filter markerEligible).foldl updateMarkersStep ⟨[], []⟩ = _
    rw [h]
    simp
  exact ⟨by rw [hu st], by rw [hu st], fun st' => by rw [hu st', hu st]⟩

/-- A stale marker state left over from a previous sync. -/
def exStaleMarkers : MarkerSyncState :=
  { markerLayer := [mkMarker (Incident.ofRow blankRow)]
    markersByIncident := [("old", mkMarker (Incident.ofRow blankRow))] }

theorem c4_updateMarkers_witness :
    ((updateMarkers exStaleMarkers (consolidateData exampleRows)).markerLayer
        = ((consolidateData exampleRows).filter markerEligible).map mkMarker)
    ∧ (updateMarkers exStaleMarkers (consolidateData exampleRows)).markersByIncident
        = ((consolidateData exampleRows).filter markerEligible).map
            (fun c => (c.incidentNumber, mkMarker c)) :=
  ⟨(c4_updateMarkers_full_rebuild exStaleMarkers (consolidateData exampleRows) (by decide)).1,
   (c4_updateMarkers_full_rebuild exStaleMarkers (consolidateData exampleRows) (by decide)).2.1⟩

/-! ### Status Reporter (`updateStats`, src/public/app.js:267-287) -/

/-- The fetch envelope (spec §3 Snapshot; §6 wire format). -/
structure Snapshot where
  calls : Option (List CallRow)
  totalCalls : Option Int
  mappedCalls : Option Int
  unmappedCalls : Option Int
  updatedAt : Option String
  geocodeAttemptsThisRun : Option Int
  error : Option String
deriving Repr, DecidableEq, Inhabited

/-- What `updateStats` writes to the DOM. `lastUpdatedRaw` keeps the raw
`updatedAt` value; `formatTime`'s locale rendering is presentation detail. -/
structure StatsView where
  totalIncidents : Nat
  mapped : Nat
  unmapped : Nat
  lastUpdatedRaw : Option String
  statusText : String
  statusColor : String
deriving Repr, DecidableEq, Inhabited

/-- `updateStats(data, callsPerIncident)` (src/public/app.js:267-287): counts
recomputed from the consolidated incidents (`c.lat && c.lon` truthiness), not
from the snapshot's row-level fields; status from `data.error`. -/
def updateStats (data : Snapshot) (callsPerIncident : List Incident) : StatsView :=
  let mappedCount := (callsPerIncident.filter incidentTruthyMapped).length
  { totalIncidents := callsPerIncident.length
    mapped := mappedCount
    unmapped := callsPerIncident.length - mappedCount
    lastUpdatedRaw := data.updatedAt
    statusText := if truthyStr data.error then "Error: " ++ data.error.getD ""
                  else "System Operational | Live Data"
    statusColor := if truthyStr data.error then "#ff3344" else "#00cc66" }

/-- A snapshot whose backend row-level counters disagree with incident-level
counts (3 rows, 2 mapped rows — but only 2 incidents, 1 of them mapped). -/
def exSnapshot : Snapshot :=
  { calls := some exampleRows
    totalCalls := some 3
    mappedCalls := some 2
    unmappedCalls := some 1
    updatedAt := some "2024-01-01T00:00:00.000Z"
    geocodeAttemptsThisRun := none
    error := none }

/-- C6: the status reporter's mapped/unmapped/total counts are functions of the
consolidated incidents alone (one count per incident, mapped iff the incident's
coordinates are truthy), independent of the snapshot's row-level
`totalCalls`/`mappedCalls`/`unmappedCalls`; on the spec §8 three-row example the
displayed counts are total=2 incidents, mapped=1, unmapped=1. -/
theorem c6_stats_incident_level :
    (∀ (data : Snapshot) (incidents : List Incident),
        (updateStats data incidents).totalIncidents = incidents.length
        ∧ (updateStats data incidents).mapped
            = (incidents.filter incidentTruthyMapped).length
        ∧ (updateStats data incidents).unmapped
            = incidents.length - (incidents.filter incidentTruthyMapped).length)
    ∧ (∀ (d d' : Snapshot) (incidents : List Incident),
        (updateStats d incidents).totalIncidents = (updateStats d' incidents).totalIncidents
        ∧ (updateStats d incidents).mapped = (updateStats d' incidents).mapped
        ∧ (updateStats d incidents).unmapped = (updateStats d' incidents).unmapped)
    ∧ (updateStats exSnapshot (consolidateData exampleRows)).totalIncidents = 2
    ∧ (updateStats exSnapshot (consolidateData exampleRows)).mapped = 1
    ∧ (updateStats exSnapshot (consolidateData exampleRows)).unmapped = 1 :=
  ⟨fun _ _ => ⟨rfl, rfl, rfl⟩, fun _ _ _ => ⟨rfl, rfl, rfl⟩, by decide, by decide, by decide⟩

/-! ### List Renderer (`renderList`, src/public/app.js:226-265) and
`focusCall` (src/public/app.js:301-312) -/

/-- The mapped indicator span of src/public/app.js:239. -/
def mappedSpanHtml : String :=
  "<span style=\"color:#00cc66\" title=\"Mapped\">📍</span>"

/-- The not-mapped indicator span of src/public/app.js:240. -/
def notMappedSpanHtml : String :=
  "<span style=\"color:#444\" title=\"Not Mapped\">⚪</span>"

/-- One rendered list row: the data `renderList` computes per call.  The
relative-time text (`timeAgo`) depends on the wall clock, so the raw date/time
inputs are kept instead. -/
structure ListItem where
  priorityLabel : String
  dateRaw : Option String
  timeRaw : Option String
  nature : Option String
  mappedIcon : String
  loc : String
  incidentNumber : String
  unitText : String
deriving Repr, DecidableEq, Inhabited

/-- The row built for one call (src/public/app.js:234-261). -/
def mkListItem (call : Incident) : ListItem :=
  { priorityLabel := "P" ++ strOr call.priority "?"
    dateRaw := call.date
    timeRaw := call.time
    nature := call.natureOfCall
    mappedIcon := if incidentTruthyMapped call then mappedSpanHtml else notMappedSpanHtml
    loc := strOr call.address (strOr call.location "Unknown Location")
    incidentNumber := call.incidentNumber
    unitText := if call.unitCount == 1 then "Unit " ++ strOrS (call.units.headD "") "?"
                else "<strong>" ++ toString call.unitCount ++ " Units</strong>" }

/-- `renderList(calls)` (src/public/app.js:226-265): render the first 100
filtered calls (`calls.slice(0, 100)`); the separate `listCount` text and the
empty-list placeholder are tracked in the application state below. -/
def renderList (calls : List Incident) : List ListItem :=
  (calls.take 100).map mkListItem

/-- Outcome of `window.focusCall` (src/public/app.js:301-312). -/
inductive FocusResult where
  | noop
  | flyTo (lat lon : Int) (popupOpened : Bool)
  | alertNotMapped
deriving Repr, DecidableEq, Inhabited

/-- `focusCall(incidentNumber)`: no-op for an unknown incident; fly to the
location and open the popup (when a marker exists) if `call.lat && call.lon`
is truthy; otherwise alert that the location is not mapped. -/
def focusCall (consolidatedCalls : List Incident)
    (markersByIncident : List (String × Marker)) (incidentNumber : String) : FocusResult :=
  match consolidatedCalls.find? (fun c => c.incidentNumber == incidentNumber) with
  | none => .noop
  | some call =>
    if incidentTruthyMapped call then
      .flyTo (call.lat.getD 0) (call.lon.getD 0)
        ((alGet markersByIncident incidentNumber).isSome)
    else .alertNotMapped

/-- C10 (implicit): on a visible incident whose `lat` and `lon` are both
non-null but at least one of them is `0` (the falsy coordinate value in the
model), `updateMarkers` creates a marker (it tests `!= null`), while
`updateStats` counts the incident as unmapped, `renderList` shows the
not-mapped indicator, and `focusCall` alerts that the location is not mapped
(they test truthiness); the two classifications disagree exactly on such
incidents. -/
theorem c10_zero_coordinate_divergence :
    (∀ c : Incident, c.lat.isSome = true → c.lon.isSome = true →
        (c.lat = some 0 ∨ c.lon = some 0) →
        markerEligible c = true
        ∧ incidentTruthyMapped c = false
        ∧ (∀ st : MarkerSyncState, (updateMarkers st [c]).markerLayer = [mkMarker c])
        ∧ (∀ d : Snapshot, (updateStats d [c]).mapped = 0 ∧ (updateStats d [c]).unmapped = 1)
        ∧ (mkListItem c).mappedIcon = notMappedSpanHtml
        ∧ (∀ m : List (String × Marker),
            focusCall [c] m c.incidentNumber = FocusResult.alertNotMapped))
    ∧ (∀ c : Incident,
        (markerEligible c = true ∧ incidentTruthyMapped c = false)
          ↔ (c.lat.isSome = true ∧ c.lon.isSome = true
              ∧ (c.lat = some 0 ∨ c.lon = some 0))) := by
  constructor
  · intro c hla hlo hz
    have hel : markerEligible c = true := by
      simp [markerEligible, hla, hlo]
    have hnt : incidentTruthyMapped c = false := by
      rcases hz with h | h <;> simp [incidentTruthyMapped, h, truthyCoord]
    refine ⟨hel, hnt, ?_, ?_, ?_, ?_⟩
    · intro st
      show (([c].filter markerEligible).foldl updateMarkersStep ⟨[], []⟩).markerLayer = _
      simp [List.filter, hel, updateMarkersStep]
    · intro d
      constructor
      · simp [updateStats, List.filter, hnt]
      · simp [updateStats, List.filter, hnt]
    · simp [mkListItem, hnt]
    · intro m
      simp [focusCall, List.find?, hnt]
  · intro c
    cases hla : c.lat with
    | none => simp [markerEligible, incidentTruthyMapped, truthyCoord, hla]
    | some la =>
      cases hlo : c.lon with
      | none => simp [markerEligible, incidentTruthyMapped, truthyCoord, hla, hlo]
      | some lo =>
        simp only [markerEligible, incidentTruthyMapped, truthyCoord, hla, hlo,
          Option.isSome_some, Bool.and_self, true_and, Option.some.injEq, bne]
        by_cases h0 : la = 0
        · by_cases h1 : lo = 0 <;> simp [h0, h1]
        · by_cases h1 : lo = 0 <;> simp [h0, h1]

/-- An incident with both coordinates present but a zero latitude. -/
def exZeroIncident : Incident :=
  { Incident.ofRow blankRow with
    incidentNumber := "Q0"
    lat := some 0
    lon := some 5 }

theorem c10_zero_coordinate_witness :
    markerEligible exZeroIncident = true
    ∧ incidentTruthyMapped exZeroIncident = false
    ∧ (mkListItem exZeroIncident).mappedIcon = notMappedSpanHtml
    ∧ focusCall [exZeroIncident] [] exZeroIncident.incidentNumber
        = FocusResult.alertNotMapped := by
  have h := c10_zero_coordinate_divergence.1 exZeroIncident (by decide) (by decide) (by decide)
  exact ⟨h.1, h.2.1, h.2.2.2.2.1, h.2.2.2.2.2 []⟩

/-! ### Application state and the poll cycle (`fetchCalls`, src/public/app.js:320-351) -/

/-- The mutable client state of src/public/app.js plus the DOM surfaces the
code writes (status line, stats counters, list, filter inputs). -/
structure AppState where
  allCallsRaw : List CallRow
  consolidatedCalls : List Incident
  division : String
  search : String
  markers : MarkerSyncState
  listCount : Nat
  renderedItems : List ListItem
  statsTotal : Nat
  statsMapped : Nat
  statsUnmapped : Nat
  lastUpdatedRaw : Option String
  statusText : String
  statusColor : String
  firstLoad : Bool
  fitCount : Nat
deriving Repr, DecidableEq, Inhabited

/-- One observable outcome of `await fetch(url)` followed by `res.json()`:
either the network request throws, or an HTTP response with some status
arrives whose body either parses to a snapshot or fails to parse. -/
inductive FetchOutcome where
  | netError (msg : String)
  | httpResponse (status : Int) (body : Except String Snapshot)
deriving Repr

/-- Whether the app.js `try` block throws before reaching the data: a network
error, or a body that `res.json()` cannot parse.  Note that a non-2xx status
by itself does NOT throw — app.js never reads `res.ok`/`res.status`. -/
def appFetchThrows (o : FetchOutcome) : Bool :=
  match o with
  | .netError _ => true
  | .httpResponse _ (.error _) => true
  | .httpResponse _ (.ok _) => false

/-- `render()` (src/public/app.js:314-318): filter, rebuild markers, re-render
the list. -/
def appRender (st : AppState) : AppState :=
  let filtered := getFilteredCalls st.consolidatedCalls st.division st.search
  { st with
    markers := updateMarkers st.markers filtered
    renderedItems := renderList filtered
    listCount := filtered.length }

/-- `syncDivisions()` (src/public/app.js:289-298): rebuild the division
`<select>`; the current value survives only if it is among the (non-empty)
divisions of the consolidated calls, otherwise the control falls back to
`"all"`. -/
def syncDivisions (st : AppState) : AppState :=
  { st with division :=
      if st.division != ""
          && st.consolidatedCalls.any (fun c => c.division == some st.division)
      then st.division else "all" }

/-- The body of the `try` block of `fetchCalls` after `res.json()` succeeded
(src/public/app.js:326-343): replace the row set, consolidate, update stats,
run the one-time first-load block (division sync + fit-bounds), then render. -/
def processSnapshot (st : AppState) (data : Snapshot) : AppState :=
  let allCallsRaw := data.calls.getD []
  let consolidated := consolidateData allCallsRaw
  let sv := updateStats data consolidated
  let st1 := { st with
    allCallsRaw := allCallsRaw
    consolidatedCalls := consolidated
    statsTotal := sv.totalIncidents
    statsMapped := sv.mapped
    statsUnmapped := sv.unmapped
    lastUpdatedRaw := sv.lastUpdatedRaw
    statusText := sv.statusText
    statusColor := sv.statusColor }
  let st2 :=
    if st1.firstLoad then
      let st1' := syncDivisions st1
      let mappedFit := st1'.consolidatedCalls.filter incidentTruthyMapped
      { st1' with
        firstLoad := false
        fitCount := st1'.fitCount + (if 0 < mappedFit.length then 1 else 0) }
    else st1
  appRender st2

/-- `fetchCalls()` (src/public/app.js:320-351) as a state transition on one
fetch outcome.  The `catch` branch handles exactly the outcomes that throw
(`appFetchThrows`); the HTTP status of a parsed response is never consulted. -/
def fetchCalls (st : AppState) (o : FetchOutcome) : AppState :=
  match o with
  | .netError _ => { st with statusText := "Connection Lost", statusColor := "red" }
  | .httpResponse _ (.error _) =>
      { st with statusText := "Connection Lost", statusColor := "red" }
  | .httpResponse _ (.ok data) => processSnapshot st data

/-- The boot state of src/public/app.js:23-28 (empty data, `firstLoad = true`). -/
def initialAppState : AppState :=
  { allCallsRaw := []
    consolidatedCalls := []
    division := "all"
    search := ""
    markers := { markerLayer := [], markersByIncident := [] }
    listCount := 0
    renderedItems := []
    statsTotal := 0
    statsMapped := 0
    statsUnmapped := 0
    lastUpdatedRaw := none
    statusText := ""
    statusColor := ""
    firstLoad := true
    fitCount := 0 }

/-- A run of the poll loop: one `fetchCalls` per outcome, in order. -/
def runFetch (st : AppState) (outcomes : List FetchOutcome) : AppState :=
  outcomes.foldl fetchCalls st

/-! ### The part_000 variant (src/unnamed/part_000) -/

/-- part_000's `PRIORITY_COLORS` lookup. -/
def p0PriorityColor (p : Option String) : String :=
  match p with
  | some "1" => "#bd1f2d"
  | some "2" => "#eb6f29"
  | some "3" => "#d6a81e"
  | some "4" => "#2f8f55"
  | _ => "#3770bf"

/-- The circle marker built by `upsertMarker` (src/unnamed/part_000:102-118). -/
def p0MkMarker (call : CallRow) : Marker :=
  { pos := (call.lat, call.lon)
    radius := 7
    color := p0PriorityColor call.priority
    fillColor := p0PriorityColor call.priority }

/-- `Number.isFinite(call.lat) && Number.isFinite(call.lon)`; in the integer
model every present coordinate is finite, so this is presence of both. -/
def p0Eligible (call : CallRow) : Bool :=
  call.lat.isSome && call.lon.isSome

/-- `upsertMarker(call)` (src/unnamed/part_000:102-118): guard again on finite
coordinates, then add the marker to the lookup and the layer. -/
def p0Upsert (s : MarkerSyncState) (call : CallRow) : MarkerSyncState :=
  if !(call.lat.isSome && call.lon.isSome) then s
  else
    { markerLayer := s.markerLayer ++ [p0MkMarker call]
      markersByIncident := alSet s.markersByIncident call.incidentNumber (p0MkMarker call) }

/-- The client state of src/unnamed/part_000 (rows are rendered directly,
without consolidation). -/
structure P0State where
  allCalls : List CallRow
  division : String
  markers : MarkerSyncState
  renderedRows : List CallRow
  totalText : String
  mappedText : String
  unmappedText : String
  statusLine : String
  lastFitDone : Bool
  fitCount : Nat
deriving Repr, DecidableEq, Inhabited

/-- `clearAndRenderMarkers(calls)` (src/unnamed/part_000:120-137): rebuild the
marker layer and the lookup from scratch, then fit the view once —
only while `lastFitDone` is still false and some mapped call exists. -/
def p0ClearAndRenderMarkers (st : P0State) (calls : List CallRow) : P0State :=
  let mappedCalls := calls.filter p0Eligible
  let markers := mappedCalls.foldl p0Upsert ⟨[], []⟩
  if !st.lastFitDone && decide (0 < mappedCalls.length) then
    { st with markers := markers, lastFitDone := true, fitCount := st.fitCount + 1 }
  else
    { st with markers := markers }

/-- `renderCallList(calls)` (src/unnamed/part_000:139-168): the first 250
filtered rows are rendered (row HTML is presentation). -/
def p0RenderCallList (calls : List CallRow) : List CallRow :=
  calls.take 250

/-- `getFilteredCalls()` (src/unnamed/part_000:170-177). -/
def p0GetFilteredCalls (st : P0State) : List CallRow :=
  if st.division == "all" then st.allCalls
  else st.allCalls.filter (fun call => call.division == some st.division)

/-- `syncDivisionFilter(calls)` (src/unnamed/part_000:179-192): the current
selection survives only when among the non-empty divisions of the calls. -/
def p0SyncDivisionFilter (st : P0State) (calls : List CallRow) : P0State :=
  let current := strOrS st.division "all"
  { st with division :=
      if calls.any (fun c => c.division == some current) && current != ""
      then current else "all" }

/-- `formatTimestamp` (src/unnamed/part_000:57-67): a missing or empty
timestamp (`Date.parse` NaN) renders as "unknown"; successful parses are
locale-formatted, abstracted here to the raw ISO string (parsing of arbitrary
strings is not modeled). -/
def p0FormatTimestamp (iso : Option String) : String :=
  match iso with
  | none => "unknown"
  | some s => if s = "" then "unknown" else s

/-- `updateStatus(data)` (src/unnamed/part_000:194-203): the displayed counters
come straight from the snapshot's row-level fields. -/
def p0UpdateStatus (st : P0State) (data : Snapshot) : P0State :=
  { st with
    totalText := toString (data.totalCalls.getD 0)
    mappedText := toString (data.mappedCalls.getD 0)
    unmappedText := toString (data.unmappedCalls.getD 0)
    statusLine := "Updated: " ++ p0FormatTimestamp data.updatedAt
      ++ " | geocode attempts this cycle: " ++ toString (data.geocodeAttemptsThisRun.getD 0)
      ++ (if truthyStr data.error then " | error: " ++ data.error.getD "" else "") }

/-- `render()` (src/unnamed/part_000:205-209). -/
def p0Render (st : P0State) : P0State :=
  let calls := p0GetFilteredCalls st
  let st1 := p0ClearAndRenderMarkers st calls
  { st1 with renderedRows := p0RenderCallList calls }

/-- `fetchCalls()` (src/unnamed/part_000:211-218): a non-2xx response is
converted into a thrown `HTTP <status>` error before the body is read. -/
def p0Fetch (o : FetchOutcome) : Except String Snapshot :=
  match o with
  | .netError msg => .error msg
  | .httpResponse status body =>
      if status < 200 ∨ 300 ≤ status then .error ("HTTP " ++ toString status)
      else body

/-- `pullLatest()` (src/unnamed/part_000:220-230): on success replace the rows
and re-render; on any thrown failure only the status line changes. -/
def p0PullLatest (st : P0State) (o : FetchOutcome) : P0State :=
  match p0Fetch o with
  | .error msg => { st with statusLine := "Unable to load active calls: " ++ msg }
  | .ok data =>
      let allCalls := data.calls.getD []
      let st1 := { st with allCalls := allCalls }
      let st2 := p0SyncDivisionFilter st1 allCalls
      let st3 := p0UpdateStatus st2 data
      p0Render st3

/-- The boot state of src/unnamed/part_000:27-38. -/
def p0InitialState : P0State :=
  { allCalls := []
    division := "all"
    markers := { markerLayer := [], markersByIncident := [] }
    renderedRows := []
    totalText := ""
    mappedText := ""
    unmappedText := ""
    statusLine := ""
    lastFitDone := false
    fitCount := 0 }

/-! ### C5: behavior of the poll cycle on fetch failures -/

/-- A syntactically valid JSON body as a backend error page might carry it. -/
def emptyBodySnapshot : Snapshot :=
  { calls := some []
    totalCalls := some 0
    mappedCalls := some 0
    unmappedCalls := some 0
    updatedAt := none
    geocodeAttemptsThisRun := none
    error := none }

/-- The app state after one successful poll of the three-row example. -/
def exGoodState : AppState :=
  fetchCalls initialAppState (FetchOutcome.httpResponse 200 (Except.ok exSnapshot))

/-- C5 counterexample: a non-2xx HTTP response whose body parses as JSON is a
fetch failure in the claim's sense, but app.js (which never reads `res.ok` or
`res.status`) processes it as a normal snapshot: starting from a state holding
two consolidated incidents and their marker, an HTTP 500 response with body
`{"calls": [], ...}` clears the consolidated incidents, the rendered list and
the marker layer, and sets the status to the operational text — the state is
not "left unchanged" and no failure is reported. -/
theorem c5_non2xx_counterexample :
    exGoodState.consolidatedCalls ≠ []
    ∧ exGoodState.markers.markerLayer ≠ []
    ∧ (fetchCalls exGoodState
        (FetchOutcome.httpResponse 500 (Except.ok emptyBodySnapshot))).consolidatedCalls = []
    ∧ (fetchCalls exGoodState
        (FetchOutcome.httpResponse 500 (Except.ok emptyBodySnapshot))).markers.markerLayer = []
    ∧ (fetchCalls exGoodState
        (FetchOutcome.httpResponse 500 (Except.ok emptyBodySnapshot))).renderedItems = []
    ∧ (fetchCalls exGoodState
        (FetchOutcome.httpResponse 500 (Except.ok emptyBodySnapshot))).statusText
        = "System Operational | Live Data" :=
  ⟨by decide, by decide, by decide, by decide, by decide, by decide⟩

/-- C5 (amended): for every fetch failure that actually throws inside the poll
routine — a network error or a response body that fails to parse, and in the
part_000 variant additionally any non-2xx response (its `fetchCalls` throws
`HTTP <status>` before reading the body) — the failure is caught there, the
status display is set to a failure message, and every other part of the state
(row set, consolidated incidents, marker layer, rendered list, counters,
filter) is left exactly unchanged. -/
theorem c5_caught_failure_preserves_state :
    (∀ (st : AppState) (o : FetchOutcome), appFetchThrows o = true →
        fetchCalls st o
          = { st with statusText := "Connection Lost", statusColor := "red" })
    ∧ (∀ (st : P0State) (o : FetchOutcome) (msg : String),
        p0Fetch o = Except.error msg →
        p0PullLatest st o
          = { st with statusLine := "Unable to load active calls: " ++ msg }) := by
  constructor
  · intro st o h
    cases o with
    | netError m => rfl
    | httpResponse s body =>
      cases body with
      | error e => rfl
      | ok data => simp [appFetchThrows] at h
  · intro st o msg h
    unfold p0PullLatest
    rw [h]

theorem c5_caught_failure_witness :
    (fetchCalls exGoodState (FetchOutcome.netError "boom")
        = { exGoodState with statusText := "Connection Lost", statusColor := "red" })
    ∧ (p0PullLatest p0InitialState (FetchOutcome.httpResponse 503 (Except.ok exSnapshot))
        = { p0InitialState with
            statusLine := "Unable to load active calls: " ++ "HTTP 503" }) :=
  ⟨c5_caught_failure_preserves_state.1 exGoodState (FetchOutcome.netError "boom") rfl,
   c5_caught_failure_preserves_state.2 p0InitialState
     (FetchOutcome.httpResponse 503 (Except.ok exSnapshot)) "HTTP 503" rfl⟩

/-! ### C8: the one-time fit-bounds action -/

theorem processSnapshot_firstLoad (st : AppState) (data : Snapshot) :
    (processSnapshot st data).firstLoad = false := by
  cases hb : st.firstLoad <;>
    simp [processSnapshot, appRender, syncDivisions, hb]

theorem processSnapshot_fitCount (st : AppState) (data : Snapshot) :
    (processSnapshot st data).fitCount
      = if st.firstLoad then
          st.fitCount + (if 0 < ((consolidateData (data.calls.getD [])).filter
              incidentTruthyMapped).length then 1 else 0)
        else st.fitCount := by
  cases hb : st.firstLoad <;>
    simp [processSnapshot, appRender, syncDivisions, hb]

theorem fetchCalls_fit_of_not_firstLoad (st : AppState) (o : FetchOutcome)
    (h : st.firstLoad = false) : (fetchCalls st o).fitCount = st.fitCount := by
  cases o with
  | netError m => rfl
  | httpResponse s body =>
    cases body with
    | error e => rfl
    | ok data =>
      show (processSnapshot st data).fitCount = st.fitCount
      rw [processSnapshot_fitCount, h]
      rfl

theorem fetchCalls_thrown_keeps_flags (st : AppState) (o : FetchOutcome)
    (h : appFetchThrows o = true) :
    (fetchCalls st o).firstLoad = st.firstLoad
    ∧ (fetchCalls st o).fitCount = st.fitCount := by
  cases o with
  | netError m => exact ⟨rfl, rfl⟩
  | httpResponse s body =>
    cases body with
    | error e => exact ⟨rfl, rfl⟩
    | ok data => simp [appFetchThrows] at h

theorem appFitInv_step (st : AppState) (o : FetchOutcome)
    (h1 : st.fitCount ≤ 1) (h2 : st.firstLoad = true → st.fitCount = 0) :
    (fetchCalls st o).fitCount ≤ 1
    ∧ ((fetchCalls st o).firstLoad = true → (fetchCalls st o).fitCount = 0) := by
  cases o with
  | netError m => exact ⟨h1, h2⟩
  | httpResponse s body =>
    cases body with
    | error e => exact ⟨h1, h2⟩
    | ok data =>
      have hf := processSnapshot_firstLoad st data
      have hc := processSnapshot_fitCount st data
      constructor
      · show (processSnapshot st data).fitCount ≤ 1
        rw [hc]
        cases hb : st.firstLoad
        · simpa [hb] using h1
        · simp only [hb, if_true]
          rw [h2 hb]
          split <;> omega
      · show (processSnapshot st data).firstLoad = true → _
        rw [hf]
        simp

theorem runFetch_fit_le_one (outcomes : List FetchOutcome) :
    (runFetch initialAppState outcomes).fitCount ≤ 1 := by
  have main : ∀ (l : List FetchOutcome) (st : AppState), st.fitCount ≤ 1 →
      (st.firstLoad = true → st.fitCount = 0) →
      (l.foldl fetchCalls st).fitCount ≤ 1 := by
    intro l
    induction l with
    | nil =>
      intro st h1 _
      simpa using h1
    | cons o t ih =>
      intro st h1 h2
      rw [List.foldl_cons]
      have h := appFitInv_step st o h1 h2
      exact ih _ h.1 h.2
  exact main outcomes initialAppState (by decide) (fun _ => rfl)

theorem p0_clearRender_fit (st : P0State) (calls : List CallRow) :
    (p0ClearAndRenderMarkers st calls).fitCount
      = st.fitCount + (if (!st.lastFitDone
            && decide (0 < (calls.filter p0Eligible).length)) = true then 1 else 0)
    ∧ (p0ClearAndRenderMarkers st calls).lastFitDone
      = (st.lastFitDone || decide (0 < (calls.filter p0Eligible).length)) := by
  by_cases hl : st.lastFitDone = true <;>
    by_cases hd : 0 < (calls.filter p0Eligible).length <;>
      simp [p0ClearAndRenderMarkers, hl, hd, Bool.not_eq_true]

theorem p0_fold_fit_le (callLists : List (List CallRow)) (st : P0State) :
    (callLists.foldl p0ClearAndRenderMarkers st).fitCount
      ≤ st.fitCount + (if st.lastFitDone then 0 else 1) := by
  induction callLists generalizing st with
  | nil =>
    simp only [List.foldl_nil]
    split <;> omega
  | cons c t ih =>
    rw [List.foldl_cons]
    have h := p0_clearRender_fit st c
    have hrec := ih (p0ClearAndRenderMarkers st c)
    rw [h.1, h.2] at hrec
    by_cases hl : st.lastFitDone = true <;>
      by_cases hd : 0 < (c.filter p0Eligible).length <;>
        simp [hl, hd] at hrec ⊢ <;> omega

/-- C8: over any run of the application the fit-to-all-mapped-points action is
performed at most once: it happens on the first successful sync if at least one
(truthy-)mapped incident exists at that point, which also clears `firstLoad`;
once `firstLoad` is false no later sync changes the fit count; thrown fetch
failures consume neither the first-load flag nor a fit.  Likewise in the
part_000 variant: any run of `clearAndRenderMarkers` performs at most
`fitCount + (lastFitDone ? 0 : 1)` total fits, and after `lastFitDone` is set
no render ever fits again. -/
theorem c8_fit_view_once :
    (∀ outcomes : List FetchOutcome, (runFetch initialAppState outcomes).fitCount ≤ 1)
    ∧ (∀ (st : AppState) (o : FetchOutcome), st.firstLoad = false →
        (fetchCalls st o).fitCount = st.fitCount)
    ∧ (∀ (st : AppState) (status : Int) (data : Snapshot), st.firstLoad = true →
        (fetchCalls st (FetchOutcome.httpResponse status (Except.ok data))).fitCount
          = st.fitCount + (if 0 < ((consolidateData (data.calls.getD [])).filter
              incidentTruthyMapped).length then 1 else 0)
        ∧ (fetchCalls st (FetchOutcome.httpResponse status (Except.ok data))).firstLoad
            = false)
    ∧ (∀ (st : AppState) (o : FetchOutcome), appFetchThrows o = true →
        (fetchCalls st o).firstLoad = st.firstLoad
        ∧ (fetchCalls st o).fitCount = st.fitCount)
    ∧ (∀ (st : P0State) (callLists : List (List CallRow)),
        (callLists.foldl p0ClearAndRenderMarkers st).fitCount
          ≤ st.fitCount + (if st.lastFitDone then 0 else 1))
    ∧ (∀ (st : P0State) (calls : List CallRow), st.lastFitDone = true →
        (p0ClearAndRenderMarkers st calls).fitCount = st.fitCount) := by
  refine ⟨runFetch_fit_le_one, fetchCalls_fit_of_not_firstLoad, ?_,
    fetchCalls_thrown_keeps_flags, fun st callLists => p0_fold_fit_le callLists st, ?_⟩
  · intro st status data h
    constructor
    · show (processSnapshot st data).fitCount = _
      rw [processSnapshot_fitCount, h]
      rfl
    · exact processSnapshot_firstLoad st data
  · intro st calls h
    rw [(p0_clearRender_fit st calls).1, h]
    simp

theorem c8_fit_view_once_witness :
    ((fetchCalls exGoodState (FetchOutcome.httpResponse 200 (Except.ok exSnapshot))).fitCount
        = exGoodState.fitCount)
    ∧ (fetchCalls initialAppState
          (FetchOutcome.httpResponse 200 (Except.ok exSnapshot))).fitCount
        = initialAppState.fitCount + (if 0 < ((consolidateData (exSnapshot.calls.getD [])).filter
            incidentTruthyMapped).length then 1 else 0)
    ∧ (p0ClearAndRenderMarkers { p0InitialState with lastFitDone := true } exampleRows).fitCount
        = ({ p0InitialState with lastFitDone := true } : P0State).fitCount :=
  ⟨c8_fit_view_once.2.1 exGoodState _ (by decide),
   (c8_fit_view_once.2.2.1 initialAppState 200 exSnapshot rfl).1,
   c8_fit_view_once.2.2.2.2.2 _ exampleRows rfl⟩

/-! ### C7: the manual-refresh control (`triggerRefresh`, src/public/app.js:353-364;
`triggerServerRefresh`, src/unnamed/part_000:232-243) -/

/-- Observable events of one manual-refresh execution, in program order. -/
inductive RefreshEv where
  | disableBtn
  | enableBtn
  | setStatus (msg : String)
  | setBtnText (msg : String)
  | requestSent
  | requestFailed
  | sleepSettle (ms : Nat)
  | runDataFetch
  | logError
deriving Repr, DecidableEq, Inhabited

/-- The event trace of app.js `triggerRefresh` for a succeeding / failing
trigger request.  On success, `setTimeout(fetchCalls, 1000)` only SCHEDULES the
data fetch; the `finally` block runs when `triggerRefresh` settles — before
the 1000 ms timer fires — so `enableBtn` precedes the settling delay and the
delayed fetch.  On failure the `catch` logs and `finally` re-enables. -/
def triggerRefreshTrace (ok : Bool) : List RefreshEv :=
  if ok then
    [.disableBtn, .setStatus "Requesting update...", .requestSent,
     .enableBtn, .sleepSettle 1000, .runDataFetch]
  else
    [.disableBtn, .setStatus "Requesting update...", .requestFailed,
     .logError, .enableBtn]

/-- The event trace of part_000 `triggerServerRefresh`: the awaited
`sleep(350)` and `pullLatest()` run inside the `try`, so the `finally`
re-enables only after them; a thrown trigger request skips straight to the
`finally` (and re-throws afterwards). -/
def triggerServerRefreshTrace (ok : Bool) : List RefreshEv :=
  if ok then
    [.disableBtn, .setBtnText "Refreshing...", .requestSent, .sleepSettle 350,
     .runDataFetch, .enableBtn, .setBtnText "Refresh Now"]
  else
    [.disableBtn, .setBtnText "Refreshing...", .requestFailed, .enableBtn,
     .setBtnText "Refresh Now"]

/-- The disabled-state of the refresh control after a trace prefix, starting
from an enabled control. -/
def btnDisabledAfter (tr : List RefreshEv) : Bool :=
  tr.foldl (fun b e =>
    match e with
    | .disableBtn => true
    | .enableBtn => false
    | _ => b) false

/-- The trigger request itself (its resolution or rejection). -/
def isRequestEv : RefreshEv → Bool
  | .requestSent => true
  | .requestFailed => true
  | _ => false

/-- Any step of the request-and-settle sequence: the trigger request, the
settling delay, and the subsequent data fetch. -/
def isSettleEv : RefreshEv → Bool
  | .requestSent => true
  | .requestFailed => true
  | .sleepSettle _ => true
  | .runDataFetch => true
  | _ => false

def eventsDisabledAux (isTarget : RefreshEv → Bool) : Bool → List RefreshEv → Bool
  | _, [] => true
  | d, e :: rest =>
      (if isTarget e then d else true)
      && eventsDisabledAux isTarget
          (match e with | .disableBtn => true | .enableBtn => false | _ => d) rest

/-- Whether the control is disabled at the moment each target event occurs
(walking the trace from an initially enabled control). -/
def eventsDisabled (isTarget : RefreshEv → Bool) (tr : List RefreshEv) : Bool :=
  eventsDisabledAux isTarget false tr

/-- C7 counterexample: in app.js's `triggerRefresh`, on a successful trigger
request the unconditional `finally` re-enables the control right after
`setTimeout` schedules the delayed `fetchCalls`; the settling delay (trace
position 4) and the data fetch (position 5) therefore run with the control
already enabled — the control does NOT remain disabled for the entire
request-and-settle sequence. -/
theorem c7_reenabled_before_fetch_counterexample :
    (triggerRefreshTrace true).get? 4 = some (RefreshEv.sleepSettle 1000)
    ∧ (triggerRefreshTrace true).get? 5 = some RefreshEv.runDataFetch
    ∧ btnDisabledAfter ((triggerRefreshTrace true).take 4) = false
    ∧ btnDisabledAfter ((triggerRefreshTrace true).take 5) = false
    ∧ eventsDisabled isSettleEv (triggerRefreshTrace true) = false := by
  decide

/-- C7 (amended): in both variants every execution of the manual refresh
disables the control as its first step, contains the unconditional re-enable on
every outcome (the trace ends with the control enabled), and keeps the control
disabled while the trigger request itself is in flight.  In the part_000
variant the control additionally stays disabled through the settling delay and
the subsequent data fetch; in app.js the delayed fetch is only scheduled and
runs after the cleanup has re-enabled the control. -/
theorem c7_button_discipline :
    (∀ ok : Bool,
      (triggerRefreshTrace ok).head? = some RefreshEv.disableBtn
      ∧ RefreshEv.enableBtn ∈ triggerRefreshTrace ok
      ∧ btnDisabledAfter (triggerRefreshTrace ok) = false
      ∧ eventsDisabled isRequestEv (triggerRefreshTrace ok) = true)
    ∧ (∀ ok : Bool,
      (triggerServerRefreshTrace ok).head? = some RefreshEv.disableBtn
      ∧ RefreshEv.enableBtn ∈ triggerServerRefreshTrace ok
      ∧ btnDisabledAfter (triggerServerRefreshTrace ok) = false
      ∧ eventsDisabled isSettleEv (triggerServerRefreshTrace ok) = true) := by
  constructor <;> intro ok <;> cases ok <;> exact ⟨by decide, by decide, by decide, by decide⟩
